import Mathlib

/-!
Shallow embedding of the authentication module of the flask-first-simple-blog
repository (src/flaskr/auth.py, with its thin storage collaborator in
src/flaskr/db.py).

The embedding models:
  - the `user` table of the sqlite store as a list of rows plus an autoincrement
    counter (`Db`);
  - the werkzeug salted password hash as a salt together with the ideal one-way
    image of the plaintext (`Hash`): `check_password_hash` succeeds exactly when
    the plaintext matches the one the hash was generated from, which is the
    verification contract the code relies on;
  - the signed client-side flask session as its one relevant key `user_id`
    together with a list of arbitrary other keys (`Session`), so that clearing
    all prior state is observable;
  - a handler outcome (`Response`): either a redirect or a rendered template
    with an optional flashed message;
  - the sequence of statements executed against the store (`List DbOp`), one
    entry per `db.execute`/`db.commit` call the code performs, so that absence
    of store effects is observable.
-/

namespace Flaskr

/-- A werkzeug password hash: a salt together with the ideal one-way image of
the plaintext it was generated from. `generate_password_hash` is salted
(distinct salts give distinct hash values for the same plaintext) and
`check_password_hash` succeeds exactly on the generating plaintext. -/
structure Hash where
  salt : Nat
  digestOf : String
deriving DecidableEq

/-- werkzeug.security.generate_password_hash, abstracted to its contract. -/
def generate_password_hash (salt : Nat) (password : String) : Hash :=
  { salt := salt, digestOf := password }

/-- werkzeug.security.check_password_hash, abstracted to its contract. -/
def check_password_hash (h : Hash) (password : String) : Bool :=
  h.digestOf == password

/-- A row of the `user` table: `id` (store-assigned), `username`, `password`
(the hash column, named `password` in the schema). -/
structure User where
  id : Nat
  username : String
  password : Hash
deriving DecidableEq

/-- The `user` table: rows in insertion order plus the autoincrement counter
that supplies the next primary key. -/
structure Db where
  users : List User
  nextId : Nat
deriving DecidableEq

/-- SELECT ... FROM user WHERE username = ? followed by fetchone(): the first
row whose username column equals the argument, or none. -/
def findByUsername (db : Db) (username : String) : Option User :=
  db.users.find? (fun u => u.username == username)

/-- SELECT * FROM user WHERE id = ? followed by fetchone(). -/
def findById (db : Db) (id : Nat) : Option User :=
  db.users.find? (fun u => u.id == id)

/-- INSERT INTO user (username, password) VALUES (?, ?): appends a row with the
next autoincrement id. -/
def insertUser (db : Db) (username : String) (h : Hash) : Db :=
  { users := db.users ++ [{ id := db.nextId, username := username, password := h }],
    nextId := db.nextId + 1 }

/-- The autoincrement invariant of the sqlite store: every existing row has an
id below the counter, so a fresh insert never collides with an existing id. -/
def Db.Wf (db : Db) : Prop :=
  ∀ u ∈ db.users, u.id < db.nextId

/-- The flask session: its one relevant key `user_id`, plus whatever other keys
it may hold, so that `session.clear()` is observable. -/
structure Session where
  userId : Option Nat
  other : List (String × String)
deriving DecidableEq

/-- What a handler returns: a redirect to a URL, or a rendered template with an
optional flashed message. -/
inductive Response where
  | redirect (url : String)
  | render (template : String) (flashed : Option String)
deriving DecidableEq

/-- One statement executed against the store, mirroring each
`db.execute`/`db.commit` call in auth.py. -/
inductive DbOp where
  | selectIdByUsername (username : String)
  | selectUserByUsername (username : String)
  | selectUserById (id : Nat)
  | insertNewUser (username : String) (h : Hash)
  | commit
deriving DecidableEq

/-- The POST branch of the register view (auth.py lines 27-73): validate
username, then password, then consult the store for an existing row; on the
first failure flash that single error and re-render the form; otherwise insert
the new user with a hashed password, commit, and redirect to the login view.
The view never touches the session; the trace lists the store statements
executed. -/
def registerPost (salt : Nat) (username password : String) (db : Db)
    (sess : Session) : Db × Session × Response × List DbOp :=
  if username = "" then
    (db, sess, Response.render "auth/register.html" (some "Username is required."), [])
  else if password = "" then
    (db, sess, Response.render "auth/register.html" (some "Password is required."), [])
  else if (findByUsername db username).isSome then
    (db, sess,
      Response.render "auth/register.html"
        (some ("User " ++ username ++ " is already registered.")),
      [DbOp.selectIdByUsername username])
  else
    (insertUser db username (generate_password_hash salt password), sess,
      Response.redirect "/auth/login",
      [DbOp.selectIdByUsername username,
       DbOp.insertNewUser username (generate_password_hash salt password),
       DbOp.commit])

/-- The POST branch of the login view (auth.py lines 79-110): fetch the row for
the submitted username; if none, flash "Incorrect username."; else if the
password does not verify, flash "Incorrect password."; else clear the whole
session, set its user_id to the matched row id and redirect to the index. -/
def loginPost (username password : String) (db : Db) (sess : Session) :
    Db × Session × Response × List DbOp :=
  match findByUsername db username with
  | none =>
    (db, sess, Response.render "auth/login.html" (some "Incorrect username."),
      [DbOp.selectUserByUsername username])
  | some user =>
    if check_password_hash user.password password then
      (db, { userId := some user.id, other := [] }, Response.redirect "/",
        [DbOp.selectUserByUsername username])
    else
      (db, sess, Response.render "auth/login.html" (some "Incorrect password."),
        [DbOp.selectUserByUsername username])

/-- load_logged_in_user (auth.py lines 118-129): the value stored in `g.user`
for the request, namely none when the session holds no user_id, and otherwise
the row fetched by id (none again when no such row exists). -/
def load_logged_in_user (db : Db) (sess : Session) : Option User :=
  match sess.userId with
  | none => none
  | some uid => findById db uid

/-- The logout view (auth.py lines 134-138): clear the whole session, redirect
to the index. -/
def logout (_sess : Session) : Session × Response :=
  ({ userId := none, other := [] }, Response.redirect "/")

/-- login_required (auth.py lines 145-155): wraps a view; when `g.user` is
none the wrapper redirects to the login view without invoking the view, and
otherwise calls the view with exactly the arguments it received. Views are
modeled as state transformers so that absence of side effects is observable. -/
def login_required {α σ : Type} (view : α → σ → σ × Response)
    (gUser : Option User) (a : α) (s : σ) : σ × Response :=
  match gUser with
  | none => (s, Response.redirect "/auth/login")
  | some _ => view a s

/-- A store-side failure of an INSERT, raised by the uniqueness constraint on
the username column. -/
inductive DbError where
  | duplicateUsername
deriving DecidableEq

/-- INSERT through the UNIQUE constraint on `user.username`: fails with
`duplicateUsername` when a row with that username already exists. -/
def insertUserChecked (db : Db) (username : String) (h : Hash) :
    Except DbError Db :=
  if (findByUsername db username).isSome then Except.error DbError.duplicateUsername
  else Except.ok (insertUser db username h)

/-- Outcome of a request handler: a normal return, or an exception escaping the
handler (the request fails with a server error). -/
inductive Outcome where
  | ok (db : Db) (sess : Session) (resp : Response)
  | exn (e : DbError)
deriving DecidableEq

/-- The register POST under a race: the store may change between the pre-check
SELECT (run against `dbAtCheck`) and the INSERT (run against `dbAtInsert`,
the state after a concurrent registration committed). The source wraps the
INSERT in no exception handler, so a uniqueness conflict escapes the handler,
modeled as the `exn` outcome. -/
def registerPostRaced (salt : Nat) (username password : String)
    (dbAtCheck dbAtInsert : Db) (sess : Session) : Outcome :=
  if username = "" then
    Outcome.ok dbAtCheck sess
      (Response.render "auth/register.html" (some "Username is required."))
  else if password = "" then
    Outcome.ok dbAtCheck sess
      (Response.render "auth/register.html" (some "Password is required."))
  else if (findByUsername dbAtCheck username).isSome then
    Outcome.ok dbAtCheck sess
      (Response.render "auth/register.html"
        (some ("User " ++ username ++ " is already registered.")))
  else
    match insertUserChecked dbAtInsert username (generate_password_hash salt password) with
    | Except.error e => Outcome.exn e
    | Except.ok db2 => Outcome.ok db2 sess (Response.redirect "/auth/login")

/-! Sample concrete states used by the witnesses and counterexamples. -/

/-- An empty store whose autoincrement counter starts at 1, as sqlite does. -/
def emptyDb : Db := { users := [], nextId := 1 }

/-- A registered user, alice, with the hash of the password secret1. -/
def aliceUser : User :=
  { id := 1, username := "alice", password := generate_password_hash 7 "secret1" }

/-- A store holding one registered user, alice. -/
def aliceDb : Db := { users := [aliceUser], nextId := 2 }

/-- An empty session. -/
def emptySession : Session := { userId := none, other := [] }

/-! Helper lemmas about list search. -/

theorem find?_append_of_none {α : Type} (p : α → Bool) (l₁ l₂ : List α)
    (h : l₁.find? p = none) : (l₁ ++ l₂).find? p = l₂.find? p := by
  induction l₁ with
  | nil => rfl
  | cons x xs ih =>
    rw [List.find?_cons] at h
    cases hx : p x with
    | true => rw [hx] at h; exact absurd h (by simp)
    | false =>
      rw [hx] at h
      rw [List.cons_append, List.find?_cons, hx]
      exact ih h

/-- C1: for every pair of non-empty credentials whose username is not yet in
the store, a register POST redirects to the login view, and a subsequent login
POST with the same credentials on the resulting store redirects home and
leaves a session holding exactly the freshly inserted user id, which hydrates
to that user on the next request. -/
theorem register_then_login_succeeds (salt : Nat) (username password : String)
    (db : Db) (sess sess2 : Session)
    (hwf : Db.Wf db) (hu : username ≠ "") (hp : password ≠ "")
    (hnew : findByUsername db username = none) :
    (registerPost salt username password db sess).2.2.1
      = Response.redirect "/auth/login" ∧
    (loginPost username password
        (registerPost salt username password db sess).1 sess2).2.2.1
      = Response.redirect "/" ∧
    (loginPost username password
        (registerPost salt username password db sess).1 sess2).2.1
      = { userId := some db.nextId, other := [] } ∧
    load_logged_in_user (registerPost salt username password db sess).1
      ((loginPost username password
          (registerPost salt username password db sess).1 sess2).2.1)
      = some { id := db.nextId, username := username,
               password := generate_password_hash salt password } := by
  have hreg : registerPost salt username password db sess
      = (insertUser db username (generate_password_hash salt password), sess,
         Response.redirect "/auth/login",
         [DbOp.selectIdByUsername username,
          DbOp.insertNewUser username (generate_password_hash salt password),
          DbOp.commit]) := by
    simp [registerPost, hu, hp, hnew]
  have hfind : findByUsername
      (insertUser db username (generate_password_hash salt password)) username
      = some { id := db.nextId, username := username,
               password := generate_password_hash salt password } := by
    unfold findByUsername insertUser
    rw [find?_append_of_none _ _ _ hnew]
    simp
  have hcheck : check_password_hash
      (generate_password_hash salt password) password = true := by
    simp [check_password_hash, generate_password_hash]
  have hid : findById
      (insertUser db username (generate_password_hash salt password)) db.nextId
      = some { id := db.nextId, username := username,
               password := generate_password_hash salt password } := by
    unfold findById insertUser
    rw [find?_append_of_none]
    · simp
    · rw [List.find?_eq_none]
      intro u hmem
      simp only [beq_iff_eq]
      exact Nat.ne_of_lt (hwf u hmem)
  have hlogin : loginPost username password
      (registerPost salt username password db sess).1 sess2
      = ((registerPost salt username password db sess).1,
         { userId := some db.nextId, other := [] }, Response.redirect "/",
         [DbOp.selectUserByUsername username]) := by
    rw [hreg]
    simp [loginPost, hfind, hcheck]
  refine ⟨by rw [hreg], by rw [hlogin], by rw [hlogin], ?_⟩
  rw [hlogin, hreg]
  simp [load_logged_in_user, hid]

/-- Witness for C1 at a concrete input: registering alice with password
secret1 on the empty store, then logging in with the same credentials,
redirects home with session user id 1, hydrating to the alice row. -/
theorem register_then_login_succeeds_witness :
    Db.Wf emptyDb ∧ ("alice" : String) ≠ "" ∧ ("secret1" : String) ≠ "" ∧
    findByUsername emptyDb "alice" = none ∧
    (registerPost 5 "alice" "secret1" emptyDb emptySession).2.2.1
      = Response.redirect "/auth/login" ∧
    (loginPost "alice" "secret1"
        (registerPost 5 "alice" "secret1" emptyDb emptySession).1 emptySession).2.2.1
      = Response.redirect "/" ∧
    (loginPost "alice" "secret1"
        (registerPost 5 "alice" "secret1" emptyDb emptySession).1 emptySession).2.1
      = { userId := some 1, other := [] } ∧
    load_logged_in_user (registerPost 5 "alice" "secret1" emptyDb emptySession).1
      ((loginPost "alice" "secret1"
          (registerPost 5 "alice" "secret1" emptyDb emptySession).1 emptySession).2.1)
      = some { id := 1, username := "alice",
               password := generate_password_hash 5 "secret1" } := by
  have hwf : Db.Wf emptyDb := fun u hmem => absurd hmem (List.not_mem_nil u)
  have h := register_then_login_succeeds 5 "alice" "secret1" emptyDb
    emptySession emptySession hwf (by decide) (by decide) rfl
  exact ⟨hwf, by decide, by decide, rfl, h.1, h.2.1, h.2.2.1, h.2.2.2⟩

/-- C2: on a register POST the validation checks run in order and the first
failing one determines the single error message: empty username yields the
username message (for any password, so both-empty yields only it); otherwise
empty password yields the password message; otherwise an existing user yields
the already-registered message. When either field is empty the trace of store
statements is empty, so the store is not consulted. -/
theorem register_validation_order (salt : Nat) (username password : String)
    (db : Db) (sess : Session) :
    (username = "" →
      registerPost salt username password db sess
        = (db, sess, Response.render "auth/register.html" (some "Username is required."), [])) ∧
    (username ≠ "" → password = "" →
      registerPost salt username password db sess
        = (db, sess, Response.render "auth/register.html" (some "Password is required."), [])) ∧
    (∀ u, username ≠ "" → password ≠ "" → findByUsername db username = some u →
      registerPost salt username password db sess
        = (db, sess,
           Response.render "auth/register.html"
             (some ("User " ++ username ++ " is already registered.")),
           [DbOp.selectIdByUsername username])) := by
  refine ⟨fun h => by simp [registerPost, h],
          fun h1 h2 => by simp [registerPost, h1, h2],
          fun u h1 h2 h3 => by simp [registerPost, h1, h2, h3]⟩

/-- Witness for C2 at a concrete input: registering alice again with a
non-empty password on a store already holding alice flashes the
already-registered message and executes only the pre-check SELECT. -/
theorem register_validation_order_witness :
    ("alice" : String) ≠ "" ∧ ("pw" : String) ≠ "" ∧
    findByUsername aliceDb "alice" = some aliceUser ∧
    registerPost 0 "alice" "pw" aliceDb emptySession
      = (aliceDb, emptySession,
         Response.render "auth/register.html" (some "User alice is already registered."),
         [DbOp.selectIdByUsername "alice"]) :=
  ⟨by decide, by decide, rfl,
   (register_validation_order 0 "alice" "pw" aliceDb emptySession).2.2 aliceUser
     (by decide) (by decide) rfl⟩

/-- C5: identity hydration yields none when the session holds no user_id;
none, without failing the request, when it holds an id with no matching row;
and the full row otherwise. -/
theorem hydrate_identity (db : Db) (sess : Session) :
    (sess.userId = none → load_logged_in_user db sess = none) ∧
    (∀ uid, sess.userId = some uid → findById db uid = none →
      load_logged_in_user db sess = none) ∧
    (∀ uid u, sess.userId = some uid → findById db uid = some u →
      load_logged_in_user db sess = some u) := by
  refine ⟨fun h => by simp [load_logged_in_user, h],
          fun uid h1 h2 => by simp [load_logged_in_user, h1, h2],
          fun uid u h1 h2 => by simp [load_logged_in_user, h1, h2]⟩

/-- Witness for C5 at a concrete input: a session holding a stale id 9, for
which no row exists in the store, hydrates to anonymous. -/
theorem hydrate_identity_witness :
    Session.userId { userId := some 9, other := [] } = some 9 ∧
    findById aliceDb 9 = none ∧
    load_logged_in_user aliceDb { userId := some 9, other := [] } = none :=
  ⟨rfl, rfl, (hydrate_identity aliceDb { userId := some 9, other := [] }).2.1 9 rfl rfl⟩

/-- C6: for every wrapped view and every request, an anonymous identity makes
the wrapper return a redirect to the login view with the state untouched and
the result independent of the wrapped view (so the view is never invoked and
none of its effects occur); an authenticated identity makes the wrapper return
exactly what the view returns on exactly the arguments received. -/
theorem access_guard (α σ : Type) (view view2 : α → σ → σ × Response)
    (a : α) (s : σ) :
    login_required view none a s = (s, Response.redirect "/auth/login") ∧
    login_required view none a s = login_required view2 none a s ∧
    ∀ u : User, login_required view (some u) a s = view a s :=
  ⟨rfl, rfl, fun _ => rfl⟩

/-- C3: on a login POST, an unknown username flashes "Incorrect username.";
a known username with a non-verifying password flashes "Incorrect password.";
and a verifying password yields a session cleared of all prior state with
user_id set to the matched row id, plus a redirect home. -/
theorem login_case_analysis (username password : String) (db : Db)
    (sess : Session) :
    (findByUsername db username = none →
      loginPost username password db sess
        = (db, sess, Response.render "auth/login.html" (some "Incorrect username."),
           [DbOp.selectUserByUsername username])) ∧
    (∀ u, findByUsername db username = some u →
      check_password_hash u.password password = false →
      loginPost username password db sess
        = (db, sess, Response.render "auth/login.html" (some "Incorrect password."),
           [DbOp.selectUserByUsername username])) ∧
    (∀ u, findByUsername db username = some u →
      check_password_hash u.password password = true →
      loginPost username password db sess
        = (db, { userId := some u.id, other := [] }, Response.redirect "/",
           [DbOp.selectUserByUsername username])) := by
  refine ⟨fun h => by simp [loginPost, h],
          fun u h1 h2 => by simp [loginPost, h1, h2],
          fun u h1 h2 => by simp [loginPost, h1, h2]⟩

/-- Witness for C3 at a concrete input: logging in as alice with the correct
password on the one-user store clears the session down to user_id 1 and
redirects home. -/
theorem login_case_analysis_witness :
    findByUsername aliceDb "alice" = some aliceUser ∧
    check_password_hash aliceUser.password "secret1" = true ∧
    loginPost "alice" "secret1" aliceDb { userId := some 9, other := [("k", "v")] }
      = (aliceDb, { userId := some 1, other := [] }, Response.redirect "/",
         [DbOp.selectUserByUsername "alice"]) :=
  ⟨rfl, rfl,
   (login_case_analysis "alice" "secret1" aliceDb
      { userId := some 9, other := [("k", "v")] }).2.2 aliceUser rfl rfl⟩

/-- C7: a login POST that ends in an error (unknown username, or a password
that does not verify against the stored hash) returns the session exactly as
it was received, and renders the login form with a flashed message instead of
establishing anything. -/
theorem login_error_session_unchanged (username password : String) (db : Db)
    (sess : Session)
    (herr : ∀ u, findByUsername db username = some u →
      check_password_hash u.password password = false) :
    (loginPost username password db sess).2.1 = sess ∧
    ∃ m, (loginPost username password db sess).2.2.1
        = Response.render "auth/login.html" (some m) := by
  cases hf : findByUsername db username with
  | none => exact ⟨by simp [loginPost, hf], "Incorrect username.", by simp [loginPost, hf]⟩
  | some u =>
    have hc := herr u hf
    exact ⟨by simp [loginPost, hf, hc], "Incorrect password.", by simp [loginPost, hf, hc]⟩

/-- Witness for C7 at a concrete input: logging in as alice with a wrong
password leaves the prior session, stale keys included, untouched. -/
theorem login_error_session_unchanged_witness :
    (∀ u, findByUsername aliceDb "alice" = some u →
      check_password_hash u.password "wrong" = false) ∧
    (loginPost "alice" "wrong" aliceDb { userId := some 9, other := [("k", "v")] }).2.1
      = { userId := some 9, other := [("k", "v")] } := by
  have herr : ∀ u, findByUsername aliceDb "alice" = some u →
      check_password_hash u.password "wrong" = false := by
    intro u h
    have h2 : some aliceUser = some u := h
    injection h2 with h3
    subst h3
    rfl
  exact ⟨herr,
    (login_error_session_unchanged "alice" "wrong" aliceDb
      { userId := some 9, other := [("k", "v")] } herr).1⟩

/-- C8 counterexample: with alice already registered, a second register POST
for alice with the empty password flashes "Password is required.", not the
already-registered error the claim predicts for every password. -/
theorem register_existing_empty_password_cex :
    findByUsername aliceDb "alice" = some aliceUser ∧
    (registerPost 0 "alice" "" aliceDb emptySession).2.2.1
      = Response.render "auth/register.html" (some "Password is required.") ∧
    (registerPost 0 "alice" "" aliceDb emptySession).2.2.1
      ≠ Response.render "auth/register.html"
          (some "User alice is already registered.") :=
  ⟨rfl, rfl, by decide⟩

/-- C8 amended: for every non-empty username already present in the store and
every non-empty password, a second register POST with that username flashes
the already-registered error and leaves the store (hence the stored hash of
the existing user) unchanged, executing only the pre-check SELECT — no insert
or update. -/
theorem register_existing_username_frame (salt : Nat) (username password : String)
    (db : Db) (sess : Session) (u : User)
    (hu : username ≠ "") (hp : password ≠ "")
    (hfound : findByUsername db username = some u) :
    registerPost salt username password db sess
      = (db, sess,
         Response.render "auth/register.html"
           (some ("User " ++ username ++ " is already registered.")),
         [DbOp.selectIdByUsername username]) := by
  simp [registerPost, hu, hp, hfound]

/-- Witness for the amended C8 at a concrete input: re-registering alice with
a different non-empty password flashes the already-registered error and
leaves the store untouched. -/
theorem register_existing_username_frame_witness :
    ("alice" : String) ≠ "" ∧ ("pw2" : String) ≠ "" ∧
    findByUsername aliceDb "alice" = some aliceUser ∧
    registerPost 3 "alice" "pw2" aliceDb emptySession
      = (aliceDb, emptySession,
         Response.render "auth/register.html"
           (some "User alice is already registered."),
         [DbOp.selectIdByUsername "alice"]) :=
  ⟨by decide, by decide, rfl,
   register_existing_username_frame 3 "alice" "pw2" aliceDb emptySession aliceUser
     (by decide) (by decide) rfl⟩

/-- C4 counterexample: the store is empty at the pre-check but holds alice by
the time of the INSERT (a concurrent registration won the race); the register
POST for alice then ends in an unhandled uniqueness error, not in the
already-registered flash re-render the claim requires. -/
theorem register_race_cex :
    findByUsername emptyDb "alice" = none ∧
    (findByUsername aliceDb "alice").isSome = true ∧
    registerPostRaced 0 "alice" "pw" emptyDb aliceDb emptySession
      = Outcome.exn DbError.duplicateUsername ∧
    Outcome.exn DbError.duplicateUsername
      ≠ Outcome.ok aliceDb emptySession
          (Response.render "auth/register.html"
            (some "User alice is already registered.")) :=
  ⟨rfl, rfl, rfl, by decide⟩

/-- C4 amended: the source wraps the INSERT in no exception handler, so
whenever the pre-check passes but a concurrent registration has taken the
username by the time of the INSERT, the uniqueness conflict escapes the
handler and the request fails, instead of being turned into the
already-registered flash error. -/
theorem register_race_unhandled (salt : Nat) (username password : String)
    (dbAtCheck dbAtInsert : Db) (sess : Session)
    (hu : username ≠ "") (hp : password ≠ "")
    (hc : findByUsername dbAtCheck username = none)
    (hi : (findByUsername dbAtInsert username).isSome = true) :
    registerPostRaced salt username password dbAtCheck dbAtInsert sess
      = Outcome.exn DbError.duplicateUsername := by
  simp [registerPostRaced, hu, hp, hc, insertUserChecked, hi]

/-- Witness for the amended C4 at a concrete input: the raced registration of
alice over the empty-then-alice store ends in the unhandled duplicate error. -/
theorem register_race_unhandled_witness :
    ("alice" : String) ≠ "" ∧ ("pw" : String) ≠ "" ∧
    findByUsername emptyDb "alice" = none ∧
    (findByUsername aliceDb "alice").isSome = true ∧
    registerPostRaced 0 "alice" "pw" emptyDb aliceDb emptySession
      = Outcome.exn DbError.duplicateUsername :=
  ⟨by decide, by decide, rfl, rfl,
   register_race_unhandled 0 "alice" "pw" emptyDb aliceDb emptySession
     (by decide) (by decide) rfl rfl⟩

/-- C9: logout replaces any prior session state by the empty session and
redirects to the index; on an already-empty session it is a no-op with the
same redirect; hydration after logout is anonymous for every store. -/
theorem logout_clears_session (sess : Session) (db : Db) :
    logout sess = ({ userId := none, other := [] }, Response.redirect "/") ∧
    logout { userId := none, other := [] }
      = ({ userId := none, other := [] }, Response.redirect "/") ∧
    load_logged_in_user db (logout sess).1 = none :=
  ⟨rfl, rfl, rfl⟩

/-- C10: a register POST never touches the session, on the success branch and
on every error branch alike, so a session that was anonymous before the
request hydrates to anonymous after it. -/
theorem register_session_frame (salt : Nat) (username password : String)
    (db : Db) (sess : Session) :
    (registerPost salt username password db sess).2.1 = sess ∧
    (sess.userId = none →
      load_logged_in_user (registerPost salt username password db sess).1
        ((registerPost salt username password db sess).2.1) = none) := by
  have hs : (registerPost salt username password db sess).2.1 = sess := by
    unfold registerPost
    split_ifs <;> rfl
  exact ⟨hs, fun h => by rw [hs]; simp [load_logged_in_user, h]⟩

/-- Witness for C10 at a concrete input: a successful registration of alice on
the empty store leaves the empty session unchanged and still anonymous. -/
theorem register_session_frame_witness :
    emptySession.userId = none ∧
    (registerPost 0 "alice" "secret1" emptyDb emptySession).2.1 = emptySession ∧
    load_logged_in_user (registerPost 0 "alice" "secret1" emptyDb emptySession).1
      ((registerPost 0 "alice" "secret1" emptyDb emptySession).2.1) = none :=
  ⟨rfl, (register_session_frame 0 "alice" "secret1" emptyDb emptySession).1,
   (register_session_frame 0 "alice" "secret1" emptyDb emptySession).2 rfl⟩

end Flaskr
